import Mathlib

/-!
Verification of `holoviews/plotting/element.py` (matplotlib element/overlay
rendering).  Python functions are shallowly embedded as executable Lean
definitions; external collaborators (the data-model's `select`, `util`
helpers, matplotlib axis objects) are modelled as explicit parameters or
small state records.
-/

/-! ## Python-value helpers -/

/-- Python numeric cell as it appears in extents/ranges: `None`, `nan`
(any non-finite float), or a finite rational number. -/
inductive PyVal
  | pynone
  | nan
  | num (q : ℚ)
deriving DecidableEq, Repr

/-- Model of `np.isfinite` restricted to the values we represent: only an
actual finite number is finite.  (The source only applies it after checking
`l2 is None`, so `pynone` never reaches it in the modelled code paths.) -/
def np_isfinite : PyVal → Bool
  | .num _ => true
  | _ => false

/-- Python exceptions distinguished by `_get_frame` and its helpers. -/
inductive PyErr
  | keyError
  | valueError
  | indexError
deriving DecidableEq, Repr

/-- Model of Python `str.isspace()`: true iff the string is nonempty and all
characters are whitespace (ASCII whitespace in this model). -/
def pyIsspace (s : String) : Bool :=
  !s.isEmpty && s.data.all (fun c => c.isWhitespace)

/-- The emptiness test used by `_format_title` (`not title or title.isspace()`):
the string is falsy (empty) or all-whitespace. -/
def blank_str (s : String) : Bool :=
  s == "" || pyIsspace s

/-- One pass of Python `str.format` restricted to the named fields the source
uses (`label`, `group`, `type`).  Substituted values are not re-scanned,
matching Python's single left-to-right pass.  Fuel is the template length;
each step consumes at least one character. -/
def pyFormatAux (label group type_name : String) : Nat → List Char → List Char
  | 0, _ => []
  | _ + 1, [] => []
  | fuel + 1, c :: cs =>
    if c = '{' then
      let fld : List Char := cs.takeWhile (fun d => d ≠ '}')
      let rest : List Char := (cs.dropWhile (fun d => d ≠ '}')).drop 1
      let v : String :=
        if String.mk fld = "label" then label
        else if String.mk fld = "group" then group
        else if String.mk fld = "type" then type_name
        else ""
      v.data ++ pyFormatAux label group type_name fuel rest
    else
      c :: pyFormatAux label group type_name fuel cs

/-- `template.format(label=label, group=group, type=type_name)` as used by
`_format_title`. -/
def pyFormat (template label group type_name : String) : String :=
  String.mk (pyFormatAux label group type_name template.data.length template.data)

/-! ## `_format_title` (element.py lines 205-224) -/

/-- The group/label/type identity of the selected frame
(`type(frame).__name__`, `frame.group`, `frame.label`). -/
structure FrameId where
  group : String
  label : String
  type_name : String
deriving DecidableEq, Repr

/-- The template half of the title: `''` when `layout_dimensions` is set,
otherwise `title_format.format(label=..., group=..., type=...)` where the
group is blanked out when it merely repeats the type name (line 209). -/
def title_part (f : FrameId) (layout_dims : Bool) (title_format : String) : String :=
  let type_name := f.type_name
  let group := if f.group ≠ type_name then f.group else ""
  if layout_dims then "" else pyFormat title_format f.label group type_name

/-- `ElementPlot._format_title`: `frame` is the result of `self._get_frame(key)`
and `dim_title` the result of the external `self._frame_title(key, 2)`
(defined outside this file's source, passed in as data). -/
def format_title (frame : Option FrameId) (layout_dims : Bool)
    (title_format : String) (dim_title : String) : Option String :=
  match frame with
  | Option.none => Option.none
  | some f =>
    let title := title_part f layout_dims title_format
    if blank_str title then some dim_title
    else if blank_str dim_title then some title
    else some (title ++ "\n" ++ dim_title)

/-! ## Plot configuration (the `param` attributes read by the methods below) -/

/-- The `aspect` parameter: `None`, a string mode, or a numeric ratio. -/
inductive AspectParam
  | pynone
  | str (s : String)
  | num (q : ℚ)
deriving DecidableEq, Repr

/-- A value stored in the matplotlib axis aspect slot by `set_aspect`. -/
inductive AspectSetting
  | num (q : ℚ)
  | named (s : String)
deriving DecidableEq, Repr

/-- An axis scale as set by `set_xscale`/`set_yscale`. -/
inductive Scale
  | linear
  | log
deriving DecidableEq, Repr

/-- A major-tick locator as installed by `_finalize_ticks`. -/
inductive Locator
  | custom (name : String)
  | logLoc (numticks : Nat)
  | maxN (n : Nat)
deriving DecidableEq, Repr

/-- The subset of `ElementPlot` parameters read by the embedded methods
(defaults as declared on the class; `zorder` defaults to 0 in `__init__`). -/
structure PlotCfg where
  zorder : Nat := 0
  bgcolor : Option String := Option.none
  show_legend : Bool := false
  show_grid : Bool := false
  show_title : Bool := true
  show_frame : Bool := false
  overlaid : Nat := 0
  projection : String := "2d"
  xaxis : Option String := some "bottom"
  yaxis : Option String := some "left"
  zaxis : Bool := true
  logx : Bool := false
  logy : Bool := false
  logz : Bool := false
  invert_xaxis : Bool := false
  invert_yaxis : Bool := false
  aspect : AspectParam := .str "square"
  apply_ticks : Bool := true
  apply_ranges : Bool := true
  apply_extents : Bool := true
  hidden_labels : List String := []
  xticks : Nat := 5
  yticks : Nat := 5
  zticks : Nat := 5
  xrotation : Nat := 0
  yrotation : Nat := 0
  zrotation : Nat := 0
  xticker : Option String := Option.none
  yticker : Option String := Option.none
  zticker : Option String := Option.none

/-- Mutable matplotlib axis state touched by the embedded methods. -/
structure Axis where
  bgcolor : Option String := Option.none
  title : Option String := Option.none
  xlabel : Option String := Option.none
  ylabel : Option String := Option.none
  zlabel : Option String := Option.none
  xgrid : Bool := false
  ygrid : Bool := false
  has_legend : Bool := false
  legend_visible : Bool := true
  xlim : Option (PyVal × PyVal) := Option.none
  ylim : Option (PyVal × PyVal) := Option.none
  zlim : Option (PyVal × PyVal) := Option.none
  aspect : Option AspectSetting := Option.none
  xscale : Scale := .linear
  yscale : Scale := .linear
  x_inverted : Bool := false
  y_inverted : Bool := false
  xformatter : Option String := Option.none
  yformatter : Option String := Option.none
  xtick_pos : Option String := Option.none
  ytick_pos : Option String := Option.none
  ztick_pos : Option String := Option.none
  xlabel_pos : Option String := Option.none
  ylabel_pos : Option String := Option.none
  xaxis_visible : Bool := true
  yaxis_visible : Bool := true
  spine_top : Bool := true
  spine_bottom : Bool := true
  spine_left : Bool := true
  spine_right : Bool := true
  xlocator : Option Locator := Option.none
  ylocator : Option Locator := Option.none
  zlocator : Option Locator := Option.none
  xticks_set : Option (List ℚ) := Option.none
  yticks_set : Option (List ℚ) := Option.none
  zticks_set : Option (List ℚ) := Option.none
  xticklabels : Option (List String) := Option.none
  yticklabels : Option (List String) := Option.none
  zticklabels : Option (List String) := Option.none
  xrot : Nat := 0
  yrot : Nat := 0
  zrot : Nat := 0
  dataRatioQ : ℚ := 1
deriving DecidableEq, Repr

/-- Per-frame data read by `get_extents`/`_finalize_axis`: the view's
dimension names, whether it is a composite (and how many grouping
dimensions it has), framewise-normalization flag, its own `extents`, the
map-wide `util.max_extents` result, per-dimension formatters, and its
`range(i)` query. -/
structure ViewInfo where
  dims : List String
  isComposite : Bool := false
  compositeNdims : Nat := 0
  framewise : Bool := false
  view_extents : List PyVal := []
  map_extents : List PyVal := []
  xformatter : Option String := Option.none
  yformatter : Option String := Option.none
  rangeOf : Nat → PyVal × PyVal := fun _ => (.nan, .nan)

/-! ## `get_extents` (element.py lines 168-202) -/

/-- Number of extent components: 6 in 3D else 4. -/
def extents_num (cfg : PlotCfg) : Nat :=
  if cfg.projection == "3d" then 6 else 4

/-- The `range_extents` tuple (lines 174-191): from `ranges` (dict lookup by
dimension name, modelled as a total function) when given, otherwise from the
view's own `range(i)`; all-NaN when `apply_ranges` is off. -/
def range_extents_of (cfg : PlotCfg) (view : ViewInfo)
    (ranges : Option (String → PyVal × PyVal)) : List PyVal :=
  if cfg.apply_ranges then
    let pair := fun (i : Nat) =>
      match ranges with
      | some r => r (view.dims.getD i "")
      | Option.none => view.rangeOf i
    let x := pair 0
    let y := pair 1
    if cfg.projection == "3d" then
      let z := pair 2
      [x.1, y.1, z.1, x.2, y.2, z.2]
    else [x.1, y.1, x.2, y.2]
  else List.replicate (extents_num cfg) .nan

/-- The `extents` override tuple (lines 193-201): the view's own extents when
framewise-normalized, else the map-wide maximum extents; all-NaN when
`apply_extents` is off. -/
def extents_source (cfg : PlotCfg) (view : ViewInfo) : List PyVal :=
  if cfg.apply_extents then
    if view.framewise then view.view_extents else view.map_extents
  else List.replicate (extents_num cfg) .nan

/-- Component choice of line 202: keep the override `l2` unless it is `None`
or non-finite, in which case fall back to the range value `l1`. -/
def extent_select (l1 l2 : PyVal) : PyVal :=
  if l2 = .pynone || !np_isfinite l2 then l1 else l2

/-- `ElementPlot.get_extents` (lines 168-202). -/
def get_extents (cfg : PlotCfg) (view : ViewInfo)
    (ranges : Option (String → PyVal × PyVal)) : List PyVal :=
  ((range_extents_of cfg view ranges).zip (extents_source cfg view)).map
    (fun p => extent_select p.1 p.2)

/-! ## `_get_frame` (element.py lines 144-165) -/

/-- The result of `self.map.select((HoloMap,), **select)`: either a `HoloMap`
(ordered frames) or a single element. -/
inductive SelResult (α : Type)
  | hmap (frames : List α)
  | elem (e : α)

/-- The `HoloMap` held in `self.map`: its key-dimension names, its ordered
`values()`, and its external `select` method (raising `KeyError` on a failed
key lookup). -/
structure HMapModel (α : Type) where
  key_dimensions : List String
  frames : List α
  selectFn : List (String × ℚ) → Except PyErr (SelResult α)

/-- A `_get_frame` key: a plain integer or a tuple of dimension values. -/
inductive PyKey
  | intk (i : Int)
  | tupk (vs : List ℚ)

/-- Line 146: `if not isinstance(key, tuple): key = (key,)`. -/
def key_tuple : PyKey → List ℚ
  | .intk i => [(i : ℚ)]
  | .tupk vs => vs

/-- Python `list.index`: position of the first match, `None` standing for the
`ValueError` raised when the item is absent. -/
def pyListIndex (l : List String) (d : String) : Option Nat :=
  match l with
  | [] => Option.none
  | x :: xs => if x = d then some 0 else (pyListIndex xs d).map (· + 1)

/-- Python list indexing `l[i]` with negative-index wrap-around; `none`
stands for `IndexError`. -/
def pyIndex {α : Type} (l : List α) (i : Int) : Option α :=
  if 0 ≤ i then l.get? i.toNat
  else if 0 ≤ (l.length : Int) + i then l.get? ((l.length : Int) + i).toNat
  else Option.none

/-- The dict comprehension of lines 155-156,
`{d: key[dimensions.index(d)] for d in key_dimensions}`: evaluated left to
right, raising `ValueError` when a key dimension is missing from
`dimensions` and `IndexError` when the key tuple is too short. -/
def buildSelect (keyT : List ℚ) (dims' : List String) :
    List String → Except PyErr (List (String × ℚ))
  | [] => .ok []
  | d :: rest =>
    match pyListIndex dims' d with
    | Option.none => .error .valueError
    | some i =>
      match keyT.get? i with
      | Option.none => .error .indexError
      | some v =>
        match buildSelect keyT dims' rest with
        | .error e => .error e
        | .ok s => .ok ((d, v) :: s)

/-- Lines 148-151: the positional dimension names, explicit or inferred from
the map. -/
def declared_dims {α : Type} (m : HMapModel α) (dims : Option (List String)) :
    List String :=
  match dims with
  | Option.none => m.key_dimensions
  | some ds => ds

/-- Lines 146-156: build the uniform-mode selection dict, with the synthetic
single-`Frame`-dimension special case of lines 152-153. -/
def uniform_select {α : Type} (m : HMapModel α) (dims : Option (List String))
    (key : PyKey) : Except PyErr (List (String × ℚ)) :=
  let keyT := key_tuple key
  let kdims := m.key_dimensions
  let dimensions := declared_dims m dims
  if kdims = ["Frame"] ∧ kdims ≠ dimensions then .ok [("Frame", 0)]
  else buildSelect keyT dimensions kdims

/-- Lines 161-165: run the select under `try/except KeyError`, yielding `None`
on a failed key lookup, then return `selection.last` when the result is a
`HoloMap` (raising on an empty one) and the result itself otherwise. -/
def try_select {α : Type} (m : HMapModel α) (sel : List (String × ℚ)) :
    Except PyErr (Option α) :=
  match m.selectFn sel with
  | .error .keyError => .ok Option.none
  | .error e => .error e
  | .ok (.elem e) => .ok (some e)
  | .ok (.hmap fs) =>
    match fs.getLast? with
    | some e => .ok (some e)
    | Option.none => .error .indexError

/-- `ElementPlot._get_frame` (lines 144-165). -/
def get_frame {α : Type} (uniform : Bool) (m : HMapModel α)
    (dims : Option (List String)) (key : PyKey) : Except PyErr (Option α) :=
  if uniform then
    match uniform_select m dims key with
    | .error e => .error e
    | .ok sel => try_select m sel
  else
    match key with
    | .intk i =>
      match pyIndex m.frames (min i ((m.frames.length : Int) - 1)) with
      | some f => .ok (some f)
      | Option.none => .error .indexError
    | .tupk vs => try_select m (m.key_dimensions.zip vs)

/-! ## Legend aggregation (`OverlayPlot._adjust_legend`, lines 625-632) -/

/-- Handles are backend artist objects compared by identity; modelled as
naturals with `0` standing for a falsy handle (`None`/`False`). -/
abbrev Handle := Nat

/-- One step of the accumulation loop of lines 630-632: append the pair when
the handle is truthy, not yet a key of the ordered dict, and the label is
truthy. -/
def legend_step (data : List (Handle × String)) (p : Handle × String) :
    List (Handle × String) :=
  if p.1 != 0 && data.all (fun q => q.1 != p.1) && p.2 != "" then data ++ [p]
  else data

/-- The `OrderedDict` built by the loop of lines 629-632, as an ordered
association list. -/
def legend_dedup (pairs : List (Handle × String)) : List (Handle × String) :=
  pairs.foldl legend_step []

/-- Reference dedup: keep the first occurrence of each handle, in order. -/
def keepFirstByKey : List (Handle × String) → List (Handle × String)
  | [] => []
  | p :: rest => p :: keepFirstByKey (rest.filter (fun q => q.1 != p.1))
  termination_by l => l.length
  decreasing_by
    simp only [List.length_cons]
    exact Nat.lt_succ_of_le (List.length_filter_le _ rest)

/-- Lines 625-632: concatenate the explicit subplot entries with the axis's
auto-discovered handle/label lists (`zip(all_handles, all_labels)`), then
deduplicate into the ordered dict. -/
def adjust_legend_data (legend_data auto : List (Handle × String)) :
    List (Handle × String) :=
  let all_handles := legend_data.map Prod.fst ++ auto.map Prod.fst
  let all_labels := legend_data.map Prod.snd ++ auto.map Prod.snd
  legend_dedup (all_handles.zip all_labels)

/-! ## `_apply_aspect` (lines 322-331) and `_finalize_axes` (lines 348-357) -/

/-- `ElementPlot._apply_aspect`: skipped entirely under a log axis; `'square'`
sets `1/data_ratio`; any other string is passed through; a number `a` sets
`(1/data_ratio)/a`. -/
def apply_aspect (cfg : PlotCfg) (axis : Axis) : Axis :=
  if cfg.logx || cfg.logy then axis
  else if cfg.aspect = .str "square" then
    { axis with aspect := some (.num (1 / axis.dataRatioQ)) }
  else if cfg.aspect ≠ .pynone then
    match cfg.aspect with
    | .str s => { axis with aspect := some (.named s) }
    | .num q => { axis with aspect := some (.num (1 / axis.dataRatioQ / q)) }
    | .pynone => axis
  else axis

/-- `ElementPlot._finalize_axes`: the `if self.logx / elif self.logy` chain
followed by the two inversion toggles. -/
def finalize_axes (cfg : PlotCfg) (axis : Axis) : Axis :=
  let axis :=
    if cfg.logx then { axis with xscale := Scale.log }
    else if cfg.logy then { axis with yscale := Scale.log }
    else axis
  let axis :=
    if cfg.invert_xaxis then { axis with x_inverted := !axis.x_inverted }
    else axis
  if cfg.invert_yaxis then { axis with y_inverted := !axis.y_inverted }
  else axis

/-! ## `_finalize_ticks` (lines 360-450) -/

/-- `axis.spines[pos].set_visible(False)`. -/
def hideSpine (axis : Axis) (pos : String) : Axis :=
  if pos = "top" then { axis with spine_top := false }
  else if pos = "bottom" then { axis with spine_bottom := false }
  else if pos = "left" then { axis with spine_left := false }
  else if pos = "right" then { axis with spine_right := false }
  else axis

/-- Hide every spine in the accumulated `disabled_spines` list. -/
def hideSpines (axis : Axis) (ps : List String) : Axis :=
  ps.foldl hideSpine axis

/-- `ElementPlot._finalize_ticks` (tick fontsize, an external style lookup,
omitted).  `xticksArg`/`yticksArg`/`zticksArg` are the explicit
positions/labels pairs passed by `update_handles`. -/
def finalize_ticks (cfg : PlotCfg)
    (xticksArg yticksArg zticksArg : Option (List ℚ × List String))
    (axis : Axis) : Axis :=
  let axis :=
    if cfg.projection != "3d" then
      let (axis, dsx) :=
        match cfg.xaxis with
        | some pos =>
          if pos = "top" then
            ({ axis with xtick_pos := some "top", xlabel_pos := some "top" },
             ([] : List String))
          else if pos = "bottom" then
            ({ axis with xtick_pos := some "bottom" }, [])
          else (axis, [])
        | Option.none =>
          ({ axis with xaxis_visible := false }, ["top", "bottom"])
      let (axis, dsy) :=
        match cfg.yaxis with
        | some pos =>
          if pos = "left" then
            ({ axis with ytick_pos := some "left" }, ([] : List String))
          else if pos = "right" then
            ({ axis with ytick_pos := some "right", ylabel_pos := some "right" },
             [])
          else (axis, [])
        | Option.none =>
          ({ axis with yaxis_visible := false }, ["left", "right"])
      hideSpines axis (dsx ++ dsy)
    else axis
  let axis :=
    if cfg.overlaid = 0 ∧ ¬cfg.show_frame ∧ cfg.projection != "polar" then
      let axis := hideSpine axis (if cfg.yaxis = some "left" then "right" else "left")
      hideSpine axis (if cfg.xaxis = some "top" then "bottom" else "top")
    else axis
  let axis :=
    match cfg.xticker with
    | some t => { axis with xlocator := some (.custom t) }
    | Option.none =>
      match xticksArg with
      | some (ts, labels) =>
        { axis with xticks_set := some ts, xticklabels := some labels }
      | Option.none =>
        if cfg.logx then { axis with xlocator := some (.logLoc cfg.xticks) }
        else if cfg.xticks ≠ 0 then { axis with xlocator := some (.maxN cfg.xticks) }
        else axis
  let axis := { axis with xrot := cfg.xrotation }
  let axis :=
    match cfg.yticker with
    | some t => { axis with ylocator := some (.custom t) }
    | Option.none =>
      match yticksArg with
      | some (ts, labels) =>
        { axis with yticks_set := some ts, yticklabels := some labels }
      | Option.none =>
        if cfg.logy then { axis with ylocator := some (.logLoc cfg.yticks) }
        else if cfg.yticks ≠ 0 then { axis with ylocator := some (.maxN cfg.yticks) }
        else axis
  let axis :=
    if cfg.projection != "3d" then axis
    else
      match cfg.zticker with
      | some t => { axis with zlocator := some (.custom t) }
      | Option.none =>
        match zticksArg with
        | some (ts, labels) =>
          { axis with zticks_set := some ts, zticklabels := some labels }
        | Option.none =>
          if cfg.logz then { axis with zlocator := some (.logLoc cfg.zticks) }
          else { axis with zlocator := some (.maxN cfg.zticks) }
  let axis :=
    if cfg.projection == "3d" then { axis with zrot := cfg.zrotation } else axis
  let axis :=
    if "x" ∈ cfg.hidden_labels then
      { axis with xticklabels := some [], xtick_pos := some "none",
                  xlabel := some "" }
    else axis
  let axis :=
    if "y" ∈ cfg.hidden_labels then
      { axis with yticklabels := some [], ytick_pos := some "none",
                  ylabel := some "" }
    else axis
  if "z" ∈ cfg.hidden_labels then
    { axis with zticklabels := some [], ztick_pos := some "none",
                zlabel := some "" }
  else axis

/-! ## `_axis_labels` (lines 308-319), `_finalize_limits` (lines 334-345) -/

/-- `ElementPlot._axis_labels`: default missing labels to the view's first,
second and (in 3D) third dimension names, skipping a composite's grouping
dimensions. -/
def axis_labels (cfg : PlotCfg) (v : ViewInfo)
    (xlabel ylabel zlabel : Option String) :
    Option String × Option String × Option String :=
  let dims := if v.isComposite then v.dims.drop v.compositeNdims else v.dims
  let xlabel := if dims ≠ [] ∧ xlabel = Option.none then some (dims.headD "")
                else xlabel
  let ylabel := if 2 ≤ dims.length ∧ ylabel = Option.none then some (dims.getD 1 "")
                else ylabel
  let zlabel := if cfg.projection == "3d" ∧ 3 ≤ dims.length ∧ zlabel = Option.none
                then some (dims.getD 2 "")
                else zlabel
  (xlabel, ylabel, zlabel)

/-- `ElementPlot._finalize_limits`: compute extents, coerce non-real entries
to NaN (None is not real; the created NaNs are the `np.NaN` object, so the
`np.NaN in (l, r)` identity test is modelled as equality with `.nan`), then
set each axis limit when both bounds are known and distinct.  A tuple of the
wrong arity (a `ValueError` unpacking in Python) leaves the axis unchanged. -/
def finalize_limits (cfg : PlotCfg) (view : ViewInfo)
    (ranges : Option (String → PyVal × PyVal)) (axis : Axis) : Axis :=
  let extents := get_extents cfg view ranges
  if extents ≠ [] ∧ cfg.overlaid = 0 then
    let coords := extents.map (fun c => if c = .pynone then PyVal.nan else c)
    if cfg.projection == "3d" then
      match coords with
      | [l, b, zmin, r, t, zmax] =>
        let axis :=
          if ¬(zmin = .nan ∨ zmax = .nan) ∧ zmin ≠ zmax then
            { axis with zlim := some (zmin, zmax) }
          else axis
        let axis :=
          if ¬(l = .nan ∨ r = .nan) ∧ l ≠ r then { axis with xlim := some (l, r) }
          else axis
        if ¬(b = .nan ∨ t = .nan) ∧ b ≠ t then { axis with ylim := some (b, t) }
        else axis
      | _ => axis
    else
      match coords with
      | [l, b, r, t] =>
        let axis :=
          if ¬(l = .nan ∨ r = .nan) ∧ l ≠ r then { axis with xlim := some (l, r) }
          else axis
        if ¬(b = .nan ∨ t = .nan) ∧ b ≠ t then { axis with ylim := some (b, t) }
        else axis
      | _ => axis
  else axis

/-! ## `_finalize_axis` (lines 237-305) -/

/-- A finalize hook `hook(self, view)`: it may mutate the axis through the
renderer's handles and may raise, returning the (possibly partially mutated)
axis together with the raised message. -/
abbrev Hook := Axis → Option ViewInfo → Axis × Option String

/-- One iteration of the hook loop of lines 299-303: run the hook on the
current state; a raised exception becomes an accumulated warning (line
303). -/
def hook_step (view : Option ViewInfo) (acc : Axis × List String)
    (hook : Hook) : Axis × List String :=
  let r := hook acc.1 view
  match r.2 with
  | Option.none => (r.1, acc.2)
  | some msg =>
    (r.1, acc.2 ++ ["Plotting hook could not be applied: " ++ msg])

/-- The hook loop of lines 299-303: each hook runs on the current state; a
raised exception is converted into a warning and iteration continues. -/
def run_finalize_hooks (hooks : List Hook) (view : Option ViewInfo)
    (axis : Axis) : Axis × List String :=
  hooks.foldl (hook_step view) (axis, [])

/-- The decoration part of `ElementPlot._finalize_axis` (lines 247-297): the
bgcolor override, then — only for z-order 0 with a non-None key — title
computation, labels, limits, tick formatters, legend/grid state, aspect,
scales and ticks.  `computed_title` stands for `self._format_title(key)`,
`suppress` for the `_suppressed`-types test, and the external
`_subplot_label` (an anchored-text artist, outside the axis model) is
omitted. -/
def decorate_axis (cfg : PlotCfg) (key_present : Bool) (view : Option ViewInfo)
    (suppress has_subplots : Bool) (computed_title : Option String)
    (xlabel ylabel zlabel : Option String)
    (xticksArg yticksArg zticksArg : Option (List ℚ × List String))
    (ranges : Option (String → PyVal × PyVal)) (axis : Axis) : Axis :=
  let axis :=
    match cfg.bgcolor with
    | some c => { axis with bgcolor := some c }
    | Option.none => axis
  if cfg.zorder = 0 ∧ key_present then
    let title := computed_title
    let (xlabel, ylabel, zlabel, axis) :=
      match view with
      | some v =>
        if ¬suppress then
          let labels := axis_labels cfg v xlabel ylabel zlabel
          let axis := finalize_limits cfg v ranges axis
          let axis :=
            match v.xformatter with
            | some f => { axis with xformatter := some f }
            | Option.none => axis
          let axis :=
            match v.yformatter with
            | some f => { axis with yformatter := some f }
            | Option.none => axis
          (labels.1, labels.2.1, labels.2.2, axis)
        else (xlabel, ylabel, zlabel, axis)
      | Option.none => (xlabel, ylabel, zlabel, axis)
    let axis :=
      if cfg.zorder = 0 ∧ ¬has_subplots then
        let axis :=
          if axis.has_legend then { axis with legend_visible := cfg.show_legend }
          else axis
        { axis with xgrid := cfg.show_grid, ygrid := cfg.show_grid }
      else axis
    let axis :=
      match xlabel with
      | some l =>
        if l ≠ "" ∧ cfg.xaxis ≠ Option.none then { axis with xlabel := some l }
        else axis
      | Option.none => axis
    let axis :=
      match ylabel with
      | some l =>
        if l ≠ "" ∧ cfg.yaxis ≠ Option.none then { axis with ylabel := some l }
        else axis
      | Option.none => axis
    let axis :=
      match zlabel with
      | some l =>
        if l ≠ "" ∧ cfg.zaxis then { axis with zlabel := some l }
        else axis
      | Option.none => axis
    let axis := apply_aspect cfg axis
    let axis := finalize_axes cfg axis
    let axis :=
      if cfg.apply_ticks then finalize_ticks cfg xticksArg yticksArg zticksArg axis
      else axis
    match title with
    | some t => if cfg.show_title then { axis with title := some t } else axis
    | Option.none => axis
  else axis

/-- `ElementPlot._finalize_axis` (lines 237-305): decorate, then run the
finalize hooks; the trailing `super()._finalize_axis(key)` call (returning
the figure handle) is external.  Returns the axis state and the accumulated
hook warnings. -/
def finalize_axis (cfg : PlotCfg) (key_present : Bool) (view : Option ViewInfo)
    (suppress has_subplots : Bool) (computed_title : Option String)
    (xlabel ylabel zlabel : Option String)
    (xticksArg yticksArg zticksArg : Option (List ℚ × List String))
    (ranges : Option (String → PyVal × PyVal)) (hooks : List Hook)
    (axis : Axis) : Axis × List String :=
  run_finalize_hooks hooks view
    (decorate_axis cfg key_present view suppress has_subplots computed_title
      xlabel ylabel zlabel xticksArg yticksArg zticksArg ranges axis)

/-- The shared cosmetic axis state named by the z-order discipline: title,
labels, grid, legend visibility, limits, aspect, scales, tick state and
spines. -/
def cosmetics (a : Axis) :=
  (a.title, a.xlabel, a.ylabel, a.zlabel, a.xgrid, a.ygrid, a.legend_visible,
   a.xlim, a.ylim, a.zlim, a.aspect, a.xscale, a.yscale, a.xtick_pos,
   a.ytick_pos, a.xlocator, a.ylocator, a.xticklabels, a.yticklabels,
   a.spine_top, a.spine_bottom, a.spine_left, a.spine_right)

/-! ## Theorems -/

/-- Claim C1, counterexample: with template `"{label} {group}"`, label `"X"`,
group `""` and suffix `"t=0"`, `_format_title` yields `"X \nt=0"` (Python's
`format` leaves the space between the fields), not the claimed `"X\nt=0"`;
and with both parts empty it returns the empty string, not `None`. -/
theorem C1_format_title_counterexample :
    format_title (some ⟨"", "X", "Curve"⟩) false "{label} {group}" "t=0"
        = some "X \nt=0"
    ∧ format_title (some ⟨"", "X", "Curve"⟩) false "{label} {group}" "t=0"
        ≠ some "X\nt=0"
    ∧ format_title (some ⟨"", "", "Curve"⟩) false "{label} {group}" ""
        = some ""
    ∧ format_title (some ⟨"", "", "Curve"⟩) false "{label} {group}" ""
        ≠ Option.none := by
  decide

/-- Claim C1, amended: the title is the substituted template combined with
the dimension suffix; when the template part is empty or whitespace the
result is the suffix (even when the suffix is itself empty — not `None`);
when only the suffix is empty or whitespace the result is the template part;
otherwise the two joined with a newline.  Template `"{label} {group}"` with
label `"X"`, group `""` and suffix `"t=0"` yields `"X \nt=0"`. -/
theorem C1_format_title_amended :
    (∀ (f : FrameId) (ld : Bool) (tf dt : String),
        blank_str (title_part f ld tf) = true →
        format_title (some f) ld tf dt = some dt)
    ∧ (∀ (f : FrameId) (ld : Bool) (tf dt : String),
        blank_str (title_part f ld tf) = false → blank_str dt = true →
        format_title (some f) ld tf dt = some (title_part f ld tf))
    ∧ (∀ (f : FrameId) (ld : Bool) (tf dt : String),
        blank_str (title_part f ld tf) = false → blank_str dt = false →
        format_title (some f) ld tf dt
          = some (title_part f ld tf ++ "\n" ++ dt))
    ∧ format_title (some ⟨"", "X", "Curve"⟩) false "{label} {group}" "t=0"
        = some "X \nt=0" := by
  refine ⟨?_, ?_, ?_, by decide⟩
  · intro f ld tf dt h1
    simp [format_title, h1]
  · intro f ld tf dt h1 h2
    simp [format_title, h1, h2]
  · intro f ld tf dt h1 h2
    simp [format_title, h1, h2]

/-- Witness for C1: an empty template makes the result the suffix. -/
theorem C1_format_title_amended_witness :
    format_title (some ⟨"", "", "Curve"⟩) false "" "suffix" = some "suffix" :=
  C1_format_title_amended.1 ⟨"", "", "Curve"⟩ false "" "suffix" (by decide)

/-- Claim C7: `_apply_aspect` does nothing under a log axis; `'square'` sets
`1/data_ratio`; a numeric aspect `a` sets `(1/data_ratio)/a`; another string
is passed through; and with data ratio `1/2`, `'square'` gives `2` and the
numeric aspect `4` gives `1/2`. -/
theorem C7_apply_aspect :
    (∀ (cfg : PlotCfg) (axis : Axis), cfg.logx = true ∨ cfg.logy = true →
        apply_aspect cfg axis = axis)
    ∧ (∀ (cfg : PlotCfg) (axis : Axis),
        cfg.logx = false → cfg.logy = false → cfg.aspect = .str "square" →
        apply_aspect cfg axis
          = { axis with aspect := some (.num (1 / axis.dataRatioQ)) })
    ∧ (∀ (cfg : PlotCfg) (axis : Axis) (q : ℚ),
        cfg.logx = false → cfg.logy = false → cfg.aspect = .num q →
        apply_aspect cfg axis
          = { axis with aspect := some (.num (1 / axis.dataRatioQ / q)) })
    ∧ (∀ (cfg : PlotCfg) (axis : Axis) (s : String),
        cfg.logx = false → cfg.logy = false → cfg.aspect = .str s →
        s ≠ "square" →
        apply_aspect cfg axis = { axis with aspect := some (.named s) })
    ∧ (apply_aspect { aspect := .str "square" } { dataRatioQ := 1/2 }).aspect
        = some (.num 2)
    ∧ (apply_aspect { aspect := .num 4 } { dataRatioQ := 1/2 }).aspect
        = some (.num (1/2)) := by
  refine ⟨?_, ?_, ?_, ?_, ?_, ?_⟩
  · rintro cfg axis (h | h) <;> simp [apply_aspect, h]
  · intro cfg axis hx hy ha
    simp [apply_aspect, hx, hy, ha]
  · intro cfg axis q hx hy ha
    simp [apply_aspect, hx, hy, ha]
  · intro cfg axis s hx hy ha hs
    simp [apply_aspect, hx, hy, ha, hs]
  · simp [apply_aspect]
  · simp [apply_aspect]
    norm_num

/-- Witness for C7: the square aspect at data ratio `1/2`. -/
theorem C7_apply_aspect_witness :
    apply_aspect { aspect := .str "square" } { dataRatioQ := 1/2 }
      = { ({} : Axis) with dataRatioQ := 1/2,
                           aspect := some (.num (1 / (1/2 : ℚ))) } :=
  C7_apply_aspect.2.1 { aspect := .str "square" } { dataRatioQ := 1/2 }
    rfl rfl rfl

/-- Claim C9: in `_finalize_axes` the `logx`/`logy` flags form an exclusive
`if/elif`, so with both set only the x-axis becomes log-scaled and the
y-scale is untouched; `logy` takes effect exactly when `logx` is false. -/
theorem C9_log_axis_exclusive :
    ∀ (cfg : PlotCfg) (axis : Axis),
      (finalize_axes { cfg with logx := true, logy := true } axis).xscale
          = Scale.log
      ∧ (finalize_axes { cfg with logx := true, logy := true } axis).yscale
          = axis.yscale
      ∧ (finalize_axes { cfg with logx := false, logy := true } axis).yscale
          = Scale.log := by
  intro cfg axis
  cases hix : cfg.invert_xaxis <;> cases hiy : cfg.invert_yaxis <;>
    refine ⟨?_, ?_, ?_⟩ <;>
    simp [finalize_axes, hix, hiy]

/-- Claim C3: a failed key lookup (a `KeyError` from the map's `select`) makes
`_get_frame` return `None` instead of raising; a `HoloMap` selection result
is resolved to its last entry, any other result is returned as-is; and in
uniform mode, once the selection dict is built, `_get_frame` is exactly this
lenient selection. -/
theorem C3_get_frame_lenient :
    (∀ (α : Type) (m : HMapModel α) (sel : List (String × ℚ)),
        m.selectFn sel = .error .keyError → try_select m sel = .ok Option.none)
    ∧ (∀ (α : Type) (m : HMapModel α) (sel : List (String × ℚ)) (e : α),
        m.selectFn sel = .ok (.elem e) → try_select m sel = .ok (some e))
    ∧ (∀ (α : Type) (m : HMapModel α) (sel : List (String × ℚ))
        (fs : List α) (e : α),
        m.selectFn sel = .ok (.hmap fs) → fs.getLast? = some e →
        try_select m sel = .ok (some e))
    ∧ (∀ (α : Type) (m : HMapModel α) (dims : Option (List String))
        (key : PyKey) (sel : List (String × ℚ)),
        uniform_select m dims key = .ok sel →
        get_frame true m dims key = try_select m sel) := by
  refine ⟨?_, ?_, ?_, ?_⟩
  · intro α m sel h
    simp [try_select, h]
  · intro α m sel e h
    simp [try_select, h]
  · intro α m sel fs e h hlast
    simp [try_select, h, hlast]
  · intro α m dims key sel h
    simp [get_frame, h]

/-- Witness for C3: a map whose `select` always raises `KeyError` yields
`None`. -/
theorem C3_get_frame_lenient_witness :
    try_select (α := Nat)
      ⟨["x"], [7], fun _ => .error .keyError⟩ [("x", 0)] = .ok Option.none :=
  C3_get_frame_lenient.1 Nat ⟨["x"], [7], fun _ => .error .keyError⟩
    [("x", 0)] rfl

/-- Claim C5: in non-uniform mode an integer key is clamped, returning the
frame at positional index `min(key, length-1)` (for a nonempty map and a
nonnegative key). -/
theorem C5_nonuniform_int_clamp (α : Type) (m : HMapModel α)
    (dims : Option (List String)) (k : Nat) (hlen : 0 < m.frames.length) :
    get_frame false m dims (.intk (k : Int)) =
      .ok (m.frames.get? (min k (m.frames.length - 1))) := by
  have h1 : (1 : Nat) ≤ m.frames.length := hlen
  have htn : ((k : Int) ⊓ ((m.frames.length : Int) - 1)).toNat
      = k ⊓ (m.frames.length - 1) := by
    omega
  have hlt : min k (m.frames.length - 1) < m.frames.length := by omega
  obtain ⟨x, hx⟩ : ∃ x, m.frames[k ⊓ (m.frames.length - 1)]? = some x :=
    ⟨_, List.getElem?_eq_getElem hlt⟩
  simp [get_frame, pyIndex, List.get?_eq_getElem?, h1, htn, hx]

lemma bne_nat_comm (a b : Nat) : (a != b) = (b != a) := by
  by_cases h : a = b
  · subst h
    rfl
  · have h1 : (a != b) = true := bne_iff_ne.mpr h
    have h2 : (b != a) = true := bne_iff_ne.mpr (Ne.symm h)
    rw [h1, h2]

lemma keepFirstByKey_nil : keepFirstByKey [] = [] := by
  rw [keepFirstByKey]

lemma keepFirstByKey_cons (p : Handle × String) (l : List (Handle × String)) :
    keepFirstByKey (p :: l)
      = p :: keepFirstByKey (l.filter (fun q => q.1 != p.1)) := by
  rw [keepFirstByKey]

lemma legend_dedup_go :
    ∀ (pairs acc : List (Handle × String)),
    (∀ p ∈ pairs, p.1 ≠ 0 ∧ p.2 ≠ "") →
    pairs.foldl legend_step acc
      = acc ++ keepFirstByKey
          (pairs.filter (fun p => acc.all (fun q => q.1 != p.1))) := by
  intro pairs
  induction pairs with
  | nil =>
    intro acc _
    simp [keepFirstByKey_nil]
  | cons p rest ih =>
    intro acc hp
    have hp1 : p.1 ≠ 0 := (hp p (List.mem_cons_self p rest)).1
    have hp2 : p.2 ≠ "" := (hp p (List.mem_cons_self p rest)).2
    have hprest : ∀ q ∈ rest, q.1 ≠ 0 ∧ q.2 ≠ "" :=
      fun q hq => hp q (List.mem_cons_of_mem p hq)
    by_cases hacc : acc.all (fun q => q.1 != p.1)
    · have hstep : legend_step acc p = acc ++ [p] := by
        simp [legend_step, hacc, bne_iff_ne.mpr hp1, bne_iff_ne.mpr hp2]
      rw [List.foldl_cons, hstep, ih (acc ++ [p]) hprest]
      have hfilter : (p :: rest).filter (fun q => acc.all (fun r => r.1 != q.1))
          = p :: rest.filter (fun q => acc.all (fun r => r.1 != q.1)) := by
        simp [List.filter_cons, hacc]
      rw [hfilter, keepFirstByKey_cons, List.filter_filter]
      have hpred : rest.filter
            (fun q => (acc ++ [p]).all (fun r => r.1 != q.1))
          = rest.filter
              (fun a => (a.1 != p.1)
                && acc.all (fun r => r.1 != a.1)) := by
        refine List.filter_congr ?_
        intro a _
        simp [List.all_append, Bool.and_comm, bne_nat_comm p.1 a.1]
      rw [hpred]
      simp
    · rw [Bool.not_eq_true] at hacc
      have hstep : legend_step acc p = acc := by
        simp [legend_step, hacc]
      rw [List.foldl_cons, hstep, ih acc hprest]
      have hfilter : (p :: rest).filter (fun q => acc.all (fun r => r.1 != q.1))
          = rest.filter (fun q => acc.all (fun r => r.1 != q.1)) := by
        simp [List.filter_cons, hacc]
      rw [hfilter]

lemma zip_unzip_append {α β : Type} (l1 l2 : List (α × β)) :
    (l1.map Prod.fst ++ l2.map Prod.fst).zip
        (l1.map Prod.snd ++ l2.map Prod.snd)
      = l1 ++ l2 := by
  rw [List.zip_append (by simp), List.zip_map', List.zip_map']
  simp

/-- Claim C6: legend aggregation deduplicates the explicit entries followed
by the auto-discovered axis entries by handle identity, keeping the first
label per handle and preserving accumulation order (given truthy handles
and labels, the conditions the loop also checks); in particular
`[(h1,"A"), (h2,"B"), (h1,"A")]` aggregates to exactly `A` then `B`. -/
theorem C6_legend_dedup :
    (∀ (ld auto : List (Handle × String)),
        (∀ p ∈ ld ++ auto, p.1 ≠ 0 ∧ p.2 ≠ "") →
        adjust_legend_data ld auto = keepFirstByKey (ld ++ auto))
    ∧ adjust_legend_data [(1, "A"), (2, "B"), (1, "A")] []
        = [(1, "A"), (2, "B")] := by
  constructor
  · intro ld auto hp
    show List.foldl legend_step []
        ((ld.map Prod.fst ++ auto.map Prod.fst).zip
          (ld.map Prod.snd ++ auto.map Prod.snd))
      = keepFirstByKey (ld ++ auto)
    rw [zip_unzip_append, legend_dedup_go (ld ++ auto) [] hp]
    simp
  · decide

/-- Witness for C6: the dedup agrees with first-occurrence-per-handle on a
concrete list with truthy handles and labels. -/
theorem C6_legend_dedup_witness :
    adjust_legend_data [(1, "A")] [(1, "B")]
      = keepFirstByKey ([(1, "A")] ++ [(1, "B")]) :=
  C6_legend_dedup.1 [(1, "A")] [(1, "B")] (by decide)

lemma run_hooks_shift (hooks : List Hook) (view : Option ViewInfo) :
    ∀ (axis : Axis) (ws : List String),
    hooks.foldl (hook_step view) (axis, ws)
      = ((run_finalize_hooks hooks view axis).1,
         ws ++ (run_finalize_hooks hooks view axis).2) := by
  induction hooks with
  | nil =>
    intro axis ws
    simp [run_finalize_hooks]
  | cons h t ih =>
    intro axis ws
    simp only [run_finalize_hooks, List.foldl_cons]
    cases hr : (h axis view).2 with
    | none =>
      simp only [hook_step, hr]
      rw [ih, ih ((h axis view).1) []]
      simp
    | some msg =>
      simp only [hook_step, hr, List.nil_append]
      rw [ih, ih ((h axis view).1) ["Plotting hook could not be applied: " ++ msg]]
      simp

/-- Claim C4: finalize hooks are isolated — the hook list runs left to right
on the evolving state with any prefix's warnings carried over, a raising
hook yields a warning instead of propagating, and `_finalize_axis` is the
decoration followed by this total hook loop (so it always returns
normally). -/
theorem C4_finalize_hooks_isolated :
    (∀ (l1 l2 : List Hook) (view : Option ViewInfo) (axis : Axis),
        run_finalize_hooks (l1 ++ l2) view axis
          = ((run_finalize_hooks l2 view (run_finalize_hooks l1 view axis).1).1,
             (run_finalize_hooks l1 view axis).2
               ++ (run_finalize_hooks l2 view
                     (run_finalize_hooks l1 view axis).1).2))
    ∧ (∀ (h : Hook) (view : Option ViewInfo) (axis ax : Axis) (msg : String),
        h axis view = (ax, some msg) →
        run_finalize_hooks [h] view axis
          = (ax, ["Plotting hook could not be applied: " ++ msg]))
    ∧ (∀ (cfg : PlotCfg) (key_present : Bool) (view : Option ViewInfo)
        (suppress subs : Bool) (ct xl yl zl : Option String)
        (xt yt zt : Option (List ℚ × List String))
        (ranges : Option (String → PyVal × PyVal)) (hooks : List Hook)
        (axis : Axis),
        finalize_axis cfg key_present view suppress subs ct xl yl zl
            xt yt zt ranges hooks axis
          = run_finalize_hooks hooks view
              (decorate_axis cfg key_present view suppress subs ct xl yl zl
                xt yt zt ranges axis)) := by
  refine ⟨?_, ?_, ?_⟩
  · intro l1 l2 view axis
    have : run_finalize_hooks (l1 ++ l2) view axis
        = l2.foldl (hook_step view) (l1.foldl (hook_step view) (axis, [])) := by
      simp [run_finalize_hooks, List.foldl_append]
    rw [this]
    have h1 : l1.foldl (hook_step view) (axis, ([] : List String))
        = run_finalize_hooks l1 view axis := rfl
    rw [h1, run_hooks_shift l2 view]
  · intro h view axis ax msg hr
    simp [run_finalize_hooks, hook_step, hr]
  · intro cfg key_present view suppress subs ct xl yl zl xt yt zt ranges hooks axis
    rfl

/-- Claim C8: for a renderer with z-order greater than 0, `_finalize_axis`
(absent external hooks, which run for every z-order) leaves all shared axis
cosmetic state — title, labels, grid, legend visibility, limits, aspect,
scales, ticks and spines — unchanged; only the z-order-0 branch (taken with
a non-None key) mutates it. -/
theorem C8_zorder_guard (cfg : PlotCfg) (key_present : Bool)
    (view : Option ViewInfo) (suppress subs : Bool)
    (ct xl yl zl : Option String)
    (xt yt zt : Option (List ℚ × List String))
    (ranges : Option (String → PyVal × PyVal)) (axis : Axis)
    (hz : 0 < cfg.zorder) :
    cosmetics (finalize_axis cfg key_present view suppress subs ct xl yl zl
        xt yt zt ranges [] axis).1
      = cosmetics axis := by
  have hno : ¬(cfg.zorder = 0 ∧ key_present = true) := by
    rintro ⟨h0, _⟩
    omega
  simp only [finalize_axis, run_finalize_hooks, List.foldl_nil,
             decorate_axis]
  rw [if_neg hno]
  cases cfg.bgcolor <;> simp [cosmetics]

/-- Witness for C8: a z-order-1 renderer leaves a default axis's cosmetic
state untouched. -/
theorem C8_zorder_guard_witness :
    cosmetics (finalize_axis { zorder := 1 } true Option.none false false
        Option.none Option.none Option.none Option.none Option.none
        Option.none Option.none Option.none [] {}).1
      = cosmetics {} :=
  C8_zorder_guard { zorder := 1 } true Option.none false false
    Option.none Option.none Option.none Option.none Option.none
    Option.none Option.none Option.none {} (by decide)

/-- Witness for C4: a single raising hook is reported, not propagated. -/
theorem C4_finalize_hooks_isolated_witness :
    run_finalize_hooks [fun a _ => (a, some "boom")] Option.none {}
      = ({}, ["Plotting hook could not be applied: " ++ "boom"]) :=
  C4_finalize_hooks_isolated.2.1 (fun a _ => (a, some "boom"))
    Option.none {} {} "boom" rfl

lemma get?_zip_of_get? {α β : Type} :
    ∀ (a : List α) (b : List β) (i : Nat) (x : α) (y : β),
    a.get? i = some x → b.get? i = some y → (a.zip b).get? i = some (x, y) := by
  intro a
  induction a with
  | nil =>
    intro b i x y h
    simp at h
  | cons u us ih =>
    intro b i x y hx hy
    cases b with
    | nil => simp at hy
    | cons v vs =>
      cases i with
      | zero =>
        simp only [List.get?] at hx hy
        cases hx
        cases hy
        simp [List.zip_cons_cons]
      | succ n =>
        simp only [List.get?] at hx hy
        simpa [List.zip_cons_cons] using ih vs n x y hx hy

lemma range_extents_of_length (cfg : PlotCfg) (view : ViewInfo)
    (ranges : Option (String → PyVal × PyVal)) :
    (range_extents_of cfg view ranges).length = extents_num cfg := by
  by_cases hr : cfg.apply_ranges <;>
    by_cases hp : cfg.projection == "3d" <;>
      simp [range_extents_of, extents_num, hr, hp]

lemma extents_source_length (cfg : PlotCfg) (view : ViewInfo)
    (hve : view.view_extents.length = extents_num cfg)
    (hme : view.map_extents.length = extents_num cfg) :
    (extents_source cfg view).length = extents_num cfg := by
  by_cases he : cfg.apply_extents <;>
    by_cases hf : view.framewise <;>
      simp [extents_source, he, hf, hve, hme]

/-- Claim C2: `get_extents` is computed component-wise over the fixed-size
tuple (4 components in 2D, 6 in 3D): each component is the extent-override
value when that value is a finite number, and the range-derived value
otherwise; and with `apply_ranges` off every range-derived component is
NaN. -/
theorem C2_get_extents_componentwise (cfg : PlotCfg) (view : ViewInfo)
    (ranges : Option (String → PyVal × PyVal))
    (hve : view.view_extents.length = extents_num cfg)
    (hme : view.map_extents.length = extents_num cfg) :
    (get_extents cfg view ranges).length = extents_num cfg
    ∧ (∀ (i : Nat) (l1 l2 : PyVal),
        (range_extents_of cfg view ranges).get? i = some l1 →
        (extents_source cfg view).get? i = some l2 →
        (get_extents cfg view ranges).get? i
          = some (if l2 = .pynone || !np_isfinite l2 then l1 else l2))
    ∧ (cfg.apply_ranges = false →
        range_extents_of cfg view ranges
          = List.replicate (extents_num cfg) PyVal.nan) := by
  refine ⟨?_, ?_, ?_⟩
  · simp [get_extents, range_extents_of_length,
          extents_source_length cfg view hve hme]
  · intro i l1 l2 h1 h2
    have hz := get?_zip_of_get? _ _ i l1 l2 h1 h2
    unfold get_extents
    rw [List.get?_eq_getElem?, List.getElem?_map, ← List.get?_eq_getElem?, hz]
    simp [extent_select]
  · intro hr
    simp [range_extents_of, hr]

/-- Witness for C2: the tuple length at a concrete 2D configuration. -/
theorem C2_get_extents_componentwise_witness :
    (get_extents {} { dims := ["x", "y"],
                      view_extents := [.nan, .nan, .nan, .nan],
                      map_extents := [.num 0, .num 0, .num 1, .num 1] }
        Option.none).length = extents_num {} :=
  (C2_get_extents_componentwise {}
    { dims := ["x", "y"],
      view_extents := [.nan, .nan, .nan, .nan],
      map_extents := [.num 0, .num 0, .num 1, .num 1] }
    Option.none (by decide) (by decide)).1

lemma pyListIndex_eq_none (l : List String) (d : String) (h : d ∉ l) :
    pyListIndex l d = Option.none := by
  induction l with
  | nil => rfl
  | cons x xs ih =>
    simp only [List.mem_cons, not_or] at h
    simp [pyListIndex, Ne.symm h.1, ih h.2]

lemma pyListIndex_lt_of_mem (l : List String) (d : String) (h : d ∈ l) :
    ∃ i, pyListIndex l d = some i ∧ i < l.length := by
  induction l with
  | nil => cases h
  | cons x xs ih =>
    by_cases hx : x = d
    · exact ⟨0, by simp [pyListIndex, hx], by simp⟩
    · have hd : d ∈ xs := by
        rcases List.mem_cons.mp h with h1 | h1
        · exact absurd h1.symm hx
        · exact h1
      obtain ⟨i, hi, hlt⟩ := ih hd
      refine ⟨i + 1, by simp [pyListIndex, hx, hi], ?_⟩
      simpa using Nat.succ_lt_succ hlt

lemma buildSelect_missing_dim (keyT : List ℚ) (dims' : List String) :
    ∀ (kd : List String) (d : String), d ∈ kd → d ∉ dims' →
    dims'.length ≤ keyT.length →
    buildSelect keyT dims' kd = .error .valueError := by
  intro kd
  induction kd with
  | nil =>
    intro d h
    cases h
  | cons x xs ih =>
    intro d hd hnot hlen
    by_cases hx : x ∈ dims'
    · obtain ⟨i, hi, hlt⟩ := pyListIndex_lt_of_mem dims' x hx
      obtain ⟨v, hv⟩ : ∃ v, keyT[i]? = some v :=
        ⟨_, List.getElem?_eq_getElem (lt_of_lt_of_le hlt hlen)⟩
      have hdxs : d ∈ xs := by
        rcases List.mem_cons.mp hd with h1 | h1
        · exact absurd hx (h1 ▸ hnot)
        · exact h1
      simp [buildSelect, hi, List.get?_eq_getElem?, hv,
            ih d hdxs hnot hlen]
    · simp [buildSelect, pyListIndex_eq_none dims' x hx]

/-- Claim C10: `_get_frame`'s leniency covers only the `KeyError` from the
map's `select`.  In uniform mode, when some key-dimension name is absent
from the declared dimensions (and the synthetic single-`Frame` special case
does not apply, with a key tuple long enough to rule out an earlier
`IndexError`), building the selection dict raises an uncaught `ValueError`
which propagates to the caller instead of yielding `None`. -/
theorem C10_missing_dim_propagates (α : Type) (m : HMapModel α)
    (dims : Option (List String)) (key : PyKey) (d : String)
    (hmem : d ∈ m.key_dimensions)
    (hnot : d ∉ declared_dims m dims)
    (hframe : ¬(m.key_dimensions = ["Frame"]
                ∧ m.key_dimensions ≠ declared_dims m dims))
    (hlen : (declared_dims m dims).length ≤ (key_tuple key).length) :
    get_frame true m dims key = .error .valueError := by
  have hsel : uniform_select m dims key = .error .valueError := by
    unfold uniform_select
    rw [if_neg hframe]
    exact buildSelect_missing_dim _ _ _ d hmem hnot hlen
  simp [get_frame, hsel]

/-- Witness for C10: a map keyed by `"time"` rendered with declared
dimensions `["phase"]` raises `ValueError`. -/
theorem C10_missing_dim_propagates_witness :
    get_frame true
      (⟨["time"], [7], fun _ => .error .keyError⟩ : HMapModel Nat)
      (some ["phase"]) (.tupk [0]) = .error .valueError :=
  C10_missing_dim_propagates Nat
    ⟨["time"], [7], fun _ => .error .keyError⟩
    (some ["phase"]) (.tupk [0]) "time"
    (by decide) (by decide) (by decide) (by decide)

/-- Witness for C5: length 5, key 99, frame at index 4. -/
theorem C5_nonuniform_int_clamp_witness :
    get_frame false
      (⟨["Frame"], [10, 20, 30, 40, 50], fun _ => .error .keyError⟩ :
        HMapModel Nat)
      Option.none (.intk ((99 : Nat) : Int)) = .ok (some 50) :=
  C5_nonuniform_int_clamp Nat
    ⟨["Frame"], [10, 20, 30, 40, 50], fun _ => .error .keyError⟩
    Option.none 99 (by decide)
